import Mathlib

/-!
Verification of the energy-device-monitor integration
(`custom_components/energy_device_monitor/`): a shallow embedding of
`sensor.py` (the value tracker and the four derived-metric sensors) and
`controller.py` (the tariff-state controller), together with theorems about
the tracked-value lifecycle, the availability logic, the combination
formulas, and the daily reset boundary.

Modelling conventions:
* Python float values are modelled as exact rationals (`ℚ`); the claims under
  study concern exact propagation of parsed finite values, not IEEE rounding.
* Python exceptions are modelled with `Except PyError`; an uncaught exception
  is an `Except.error` result.
* A Python instance attribute that may be unset is an `Option` field; reading
  an unset attribute raises `AttributeError`.
-/

deriving instance DecidableEq for Except

namespace EnergyDeviceMonitor

/-- Python exception kinds that the embedded code can raise. -/
inductive PyError where
  | valueError
  | typeError
  | attributeError
  | recursionError
deriving DecidableEq, Repr

/-- dataclass `EnergyDeviceEntityState` (sensor.py lines 31–34):
`available : bool`, `state : float | None = None`. -/
structure EnergyDeviceEntityState where
  available : Bool
  state : Option ℚ := none
deriving DecidableEq, Repr

/-! ### Python `float()` parsing

`float(s)` on a string: strip surrounding whitespace, then an optional sign,
digits with an optional fractional part, and an optional decimal exponent.
Non-finite literals (`inf`, `nan`) and digit-group underscores are not
modelled; the claims concern finite decimal readings and malformed input.
A string that does not match raises `ValueError`. -/

/-- Value of a list of decimal digit characters. -/
def digitsToNat (ds : List Char) : Nat :=
  ds.foldl (fun n c => 10 * n + (c.toNat - 48)) 0

/-- Split a leading run of decimal digits from the rest. -/
def takeDigits : List Char → List Char × List Char
  | [] => ([], [])
  | c :: cs =>
    if c.isDigit then
      let p := takeDigits cs
      (c :: p.1, p.2)
    else ([], c :: cs)

/-- Consume an optional leading sign, returning the sign as `1` or `-1`. -/
def parseSign : List Char → Int × List Char
  | '+' :: cs => (1, cs)
  | '-' :: cs => (-1, cs)
  | cs => (1, cs)

/-- Unsigned decimal significand: digits with an optional fractional part.
At least one digit must be present on one side of the point. Returns the
mantissa (all digits read as one numeral) and the number of fractional
digits. -/
def parseUnsigned : List Char → Option ((Nat × Nat) × List Char) := fun cs =>
  let ip := takeDigits cs
  match ip.2 with
  | '.' :: r2 =>
    let fp := takeDigits r2
    if ip.1.isEmpty && fp.1.isEmpty then none
    else some ((digitsToNat (ip.1 ++ fp.1), fp.1.length), fp.2)
  | _ =>
    if ip.1.isEmpty then none
    else some ((digitsToNat ip.1, 0), ip.2)

/-- Optional exponent part `e`/`E` followed by a signed digit run; when the
next character is not an exponent marker nothing is consumed. -/
def parseExponent : List Char → Option (Int × List Char)
  | [] => some (0, [])
  | c :: r1 =>
    if c = 'e' ∨ c = 'E' then
      let sg := parseSign r1
      let ds := takeDigits sg.2
      if ds.1.isEmpty then none else some (sg.1 * (digitsToNat ds.1 : Int), ds.2)
    else some (0, c :: r1)

/-- Strip leading and trailing whitespace from a character list. -/
def stripChars (cs : List Char) : List Char :=
  ((cs.dropWhile Char.isWhitespace).reverse.dropWhile Char.isWhitespace).reverse

/-- Exact rational value of a signed decimal with mantissa `m` scaled by
`10 ^ e`. -/
def decimalToRat (sign : Int) (m : Nat) (e : Int) : ℚ :=
  if 0 ≤ e then mkRat (sign * (m : Int) * 10 ^ e.toNat) 1
  else mkRat (sign * (m : Int)) (10 ^ (-e).toNat)

/-- Python `float(s)` as a partial parse to an exact rational: `none` models
a `ValueError`. -/
def pyFloat? (s : String) : Option ℚ :=
  let cs := stripChars s.toList
  let sg := parseSign cs
  match parseUnsigned sg.2 with
  | none => none
  | some m =>
    match parseExponent m.2 with
    | none => none
    | some e =>
      if e.2.isEmpty then some (decimalToRat sg.1 m.1.1 (e.1 - (m.1.2 : Int)))
      else none

/-- `float(s)` with the exception made explicit. -/
def pyFloatExc (s : String) : Except PyError ℚ :=
  match pyFloat? s with
  | some v => .ok v
  | none => .error .valueError

/-- `homeassistant.const.STATE_UNAVAILABLE`. -/
def STATE_UNAVAILABLE : String := "unavailable"

/-- `EnergyDeviceMonitorSensor._async_update_entity_state` (sensor.py
lines 141–151). The argument models `hass.states.get(entity_id)` followed by
`.state`: outer `none` is a missing `State` object, inner `none` is
`state.state is None`. The `try`/`except ValueError` around `float` is
explicit: only a `ValueError` is caught. -/
def updateEntityState (raw : Option (Option String)) :
    Except PyError EnergyDeviceEntityState :=
  match raw with
  | none => .ok { available := false }
  | some none => .ok { available := false }
  | some (some s) =>
    if s = STATE_UNAVAILABLE then .ok { available := false }
    else
      match pyFloatExc s with
      | .ok v => .ok { available := true, state := some v }
      | .error .valueError => .ok { available := false }
      | .error e => .error e

/-! ### The sensor instances

`EnergyDeviceMonitorSensor` (sensor.py lines 60–151) keeps one
`EnergyDeviceEntityState` snapshot attribute per tracked input. The class
declares the four attributes (lines 75–78) but `__init__` (lines 80–117)
never assigns them, so each is unset until `async_update` first writes it;
an unset attribute is `none` here and reading it raises `AttributeError`. -/

/-- The four snapshot attributes of one sensor instance. -/
structure MonitorState where
  low_tariff_state : Option EnergyDeviceEntityState := none
  high_tariff_state : Option EnergyDeviceEntityState := none
  low_consumption_state : Option EnergyDeviceEntityState := none
  high_consumption_state : Option EnergyDeviceEntityState := none
deriving DecidableEq, Repr

/-- Snapshot attributes right after `__init__`: all unset. -/
def initialState : MonitorState := {}

/-- Config-entry data used by the sensors: the two shared tariff entity ids
(`entry.data[CONF_LOW_TARIFF_ENTITY]`, `entry.data[CONF_HIGH_TARIFF_ENTITY]`). -/
structure EntryData where
  conf_low_tariff_entity : String
  conf_high_tariff_entity : String
deriving DecidableEq, Repr

/-- Subentry data: the per-device consumption entity ids. -/
structure SubentryData where
  conf_low_consumption_entity : String
  conf_high_consumption_entity : String
deriving DecidableEq, Repr

/-- The `include_*` constructor flags (sensor.py lines 85–88), in the
source's parameter order. -/
structure IncludeFlags where
  include_low_consumption : Bool := false
  include_high_consumption : Bool := false
  include_low_tariff : Bool := false
  include_high_tariff : Bool := false
deriving DecidableEq, Repr

/-- The four tracked dependency identifiers. -/
inductive Dep where
  | lowTariff
  | highTariff
  | lowConsumption
  | highConsumption
deriving DecidableEq, Repr

/-- The snapshot attribute holding dependency `d`. -/
def depState : Dep → MonitorState → Option EnergyDeviceEntityState
  | .lowTariff, st => st.low_tariff_state
  | .highTariff, st => st.high_tariff_state
  | .lowConsumption, st => st.low_consumption_state
  | .highConsumption, st => st.high_consumption_state

/-- Availability flag of dependency `d`, `false` when the snapshot is unset. -/
def depAvailable (d : Dep) (st : MonitorState) : Bool :=
  match depState d st with
  | some e => e.available
  | none => false

/-- The `include_*` flag that registers dependency `d`. -/
def flagOf : Dep → IncludeFlags → Bool
  | .lowTariff, f => f.include_low_tariff
  | .highTariff, f => f.include_high_tariff
  | .lowConsumption, f => f.include_low_consumption
  | .highConsumption, f => f.include_high_consumption

/-- The entity id that dependency `d` is tracked under (sensor.py
lines 104–111 and 124–139). -/
def entityId : Dep → EntryData → SubentryData → String
  | .lowTariff, e, _ => e.conf_low_tariff_entity
  | .highTariff, e, _ => e.conf_high_tariff_entity
  | .lowConsumption, _, s => s.conf_low_consumption_entity
  | .highConsumption, _, s => s.conf_high_consumption_entity

/-- `EnergyDeviceMonitorSensor.async_update` (sensor.py lines 122–139): for
each included dependency, refresh its snapshot attribute from the host state
machine. `hassStates` models `hass.states.get` composed with `.state`. -/
def asyncUpdate (hassStates : String → Option (Option String)) (entry : EntryData)
    (subentry : SubentryData) (flags : IncludeFlags) (st : MonitorState) :
    Except PyError MonitorState := do
  let st1 ←
    if flags.include_low_tariff then do
      let v ← updateEntityState (hassStates entry.conf_low_tariff_entity)
      pure { st with low_tariff_state := some v }
    else pure st
  let st2 ←
    if flags.include_high_tariff then do
      let v ← updateEntityState (hassStates entry.conf_high_tariff_entity)
      pure { st1 with high_tariff_state := some v }
    else pure st1
  let st3 ←
    if flags.include_low_consumption then do
      let v ← updateEntityState (hassStates subentry.conf_low_consumption_entity)
      pure { st2 with low_consumption_state := some v }
    else pure st2
  let st4 ←
    if flags.include_high_consumption then do
      let v ← updateEntityState (hassStates subentry.conf_high_consumption_entity)
      pure { st3 with high_consumption_state := some v }
    else pure st3
  pure st4

/-! ### The four derived-metric sensors -/

/-- The four sensor classes built on the shared base (sensor.py
lines 154–326). -/
inductive SensorKind where
  | dailyLowCost
  | dailyHighCost
  | totalDailyCost
  | totalDailyConsumption
deriving DecidableEq, Repr

/-- Constructor flags each sensor class passes to the base `__init__`
(sensor.py lines 166–174, 221–227, 259–265, 299–305). -/
def kindFlags : SensorKind → IncludeFlags
  | .dailyLowCost => { include_low_tariff := true, include_low_consumption := true }
  | .dailyHighCost => { include_high_tariff := true, include_high_consumption := true }
  | .totalDailyCost =>
    { include_low_tariff := true, include_low_consumption := true,
      include_high_tariff := true, include_high_consumption := true }
  | .totalDailyConsumption =>
    { include_low_consumption := true, include_high_consumption := true }

/-- Dependencies each sensor's `available` property reads, in the order the
source reads them (sensor.py lines 185–193, 236–239, 274–279, 315–321). -/
def deps : SensorKind → List Dep
  | .dailyLowCost => [.lowTariff, .lowConsumption]
  | .dailyHighCost => [.highTariff, .highConsumption]
  | .totalDailyCost => [.lowTariff, .highTariff, .lowConsumption, .highConsumption]
  | .totalDailyConsumption => [.lowConsumption, .highConsumption]

/-- Reading a snapshot attribute: `AttributeError` when it was never
assigned; reading does not change the instance state, so the state is
returned unchanged. -/
def readAttr (attr : Option EnergyDeviceEntityState) (st : MonitorState) :
    Except PyError (EnergyDeviceEntityState × MonitorState) :=
  match attr with
  | some e => .ok (e, st)
  | none => .error .attributeError

/-- Python `*` on `float | None`: a `None` operand raises `TypeError`. -/
def pyMul (a b : Option ℚ) : Except PyError ℚ :=
  match a, b with
  | some x, some y => .ok (x * y)
  | _, _ => .error .typeError

/-- Python `+` on `float | None`: a `None` operand raises `TypeError`. -/
def pyAdd (a b : Option ℚ) : Except PyError ℚ :=
  match a, b with
  | some x, some y => .ok (x + y)
  | _, _ => .error .typeError

/-- The `available` property of each sensor class, with Python `and`
short-circuiting: a later attribute is read only when every earlier
availability flag was true (sensor.py lines 185–193, 236–239, 274–279,
315–321). -/
def availableEval (k : SensorKind) (st : MonitorState) :
    Except PyError (Bool × MonitorState) :=
  match k with
  | .dailyLowCost => do
    let p1 ← readAttr st.low_tariff_state st
    if p1.1.available then do
      let p2 ← readAttr p1.2.low_consumption_state p1.2
      pure (p2.1.available, p2.2)
    else pure (false, p1.2)
  | .dailyHighCost => do
    let p1 ← readAttr st.high_tariff_state st
    if p1.1.available then do
      let p2 ← readAttr p1.2.high_consumption_state p1.2
      pure (p2.1.available, p2.2)
    else pure (false, p1.2)
  | .totalDailyCost => do
    let p1 ← readAttr st.low_tariff_state st
    if p1.1.available then do
      let p2 ← readAttr p1.2.high_tariff_state p1.2
      if p2.1.available then do
        let p3 ← readAttr p2.2.low_consumption_state p2.2
        if p3.1.available then do
          let p4 ← readAttr p3.2.high_consumption_state p3.2
          pure (p4.1.available, p4.2)
        else pure (false, p3.2)
      else pure (false, p2.2)
    else pure (false, p1.2)
  | .totalDailyConsumption => do
    let p1 ← readAttr st.low_consumption_state st
    if p1.1.available then do
      let p2 ← readAttr p1.2.high_consumption_state p1.2
      pure (p2.1.available, p2.2)
    else pure (false, p1.2)

/-- The `native_value` property of each sensor class (sensor.py
lines 195–200, 241–244, 281–284, 323–326), reading the snapshot attributes
in the source's evaluation order. -/
def nativeValueEval (k : SensorKind) (st : MonitorState) :
    Except PyError (ℚ × MonitorState) :=
  match k with
  | .dailyLowCost => do
    let p1 ← readAttr st.low_tariff_state st
    let p2 ← readAttr p1.2.low_consumption_state p1.2
    let v ← pyMul p1.1.state p2.1.state
    pure (v, p2.2)
  | .dailyHighCost => do
    let p1 ← readAttr st.high_tariff_state st
    let p2 ← readAttr p1.2.high_consumption_state p1.2
    let v ← pyMul p1.1.state p2.1.state
    pure (v, p2.2)
  | .totalDailyCost => do
    let p1 ← readAttr st.low_tariff_state st
    let p2 ← readAttr p1.2.low_consumption_state p1.2
    let x ← pyMul p1.1.state p2.1.state
    let p3 ← readAttr p2.2.high_tariff_state p2.2
    let p4 ← readAttr p3.2.high_consumption_state p3.2
    let y ← pyMul p3.1.state p4.1.state
    pure (x + y, p4.2)
  | .totalDailyConsumption => do
    let p1 ← readAttr st.low_consumption_state st
    let p2 ← readAttr p1.2.high_consumption_state p1.2
    let v ← pyAdd p1.1.state p2.1.state
    pure (v, p2.2)

/-- How the host reads a derived metric: the `available` property first, and
`native_value` only when it returned true; otherwise the displayed value is
none.  This is the spec's `evaluate() -> (available, value)`. -/
def evaluateEval (k : SensorKind) (st : MonitorState) :
    Except PyError ((Bool × Option ℚ) × MonitorState) := do
  let pa ← availableEval k st
  if pa.1 then do
    let pv ← nativeValueEval k pa.2
    pure ((true, some pv.1), pv.2)
  else pure ((false, none), pa.2)

/-- A snapshot state in which all four dependencies are available and carry
the given numeric values. -/
def mkAllAvailable (pl ph cl ch : ℚ) : MonitorState :=
  { low_tariff_state := some { available := true, state := some pl }
    high_tariff_state := some { available := true, state := some ph }
    low_consumption_state := some { available := true, state := some cl }
    high_consumption_state := some { available := true, state := some ch } }

/-! ### The daily reset boundary

`TotalDailyCostSensor.last_reset` (sensor.py lines 202–206):
`datetime.combine(datetime.now(tz).date(), time.min, tzinfo=tz)` where
`tz = ZoneInfo(self.hass.config.time_zone)`. Dates and times of day are
modelled structurally; `now` is the current moment already expressed in the
configured time zone. -/

/-- A calendar date. -/
structure LocalDate where
  year : Int
  month : Nat
  day : Nat
deriving DecidableEq, Repr

/-- A time of day, as `datetime.time`. -/
structure TimeOfDay where
  hour : Nat
  minute : Nat
  second : Nat
  microsecond : Nat
deriving DecidableEq, Repr

/-- `datetime.time.min`: midnight, 00:00:00.000000. -/
def time_min : TimeOfDay := { hour := 0, minute := 0, second := 0, microsecond := 0 }

/-- A timezone-aware datetime: a date and a time of day in a named zone. -/
structure ZonedDateTime where
  date : LocalDate
  timeOfDay : TimeOfDay
  tzKey : String
deriving DecidableEq, Repr

/-- `TotalDailyCostSensor.last_reset`: combine today's date (in the
configured zone) with `time.min` in that same zone. -/
def last_reset (now : ZonedDateTime) : ZonedDateTime :=
  { date := now.date, timeOfDay := time_min, tzKey := now.tzKey }

/-- Modelled from the spec: `start_of_current_period(now, timezone)` returns
the timestamp of midnight (00:00, start of day) of `now`'s calendar date in
the given timezone, performing no subtraction or roll-over of values. -/
def start_of_current_period (now : ZonedDateTime) (timeZone : String) : ZonedDateTime :=
  { date := now.date
    timeOfDay := { hour := 0, minute := 0, second := 0, microsecond := 0 }
    tzKey := timeZone }

/-! ### The Controller (controller.py)

`Controller` declares class attributes `low_tariff_state: State | None = None`
and `high_tariff_state: State | None = None` (lines 20–21), but then rebinds
both names to properties (lines 46–54) whose getters return
`self.low_tariff_state` / `self.high_tariff_state`. Because the property is a
class-level descriptor and `__init__` never puts either name in the instance
dictionary, every such read re-enters the same getter. The getter is embedded
with explicit fuel counting the remaining Python stack frames; exhausting it
is Python's `RecursionError`. -/

/-- A minimal `homeassistant.core.State`: its raw state string (which may be
`None`). -/
structure HAState where
  state : Option String
deriving DecidableEq, Repr

/-- Reading `Controller.low_tariff_state` with `fuel` remaining stack
frames: the getter body reads the same property again. -/
def lowTariffStateGetter : Nat → Except PyError (Option HAState)
  | 0 => .error .recursionError
  | n + 1 => lowTariffStateGetter n

/-- Reading `Controller.high_tariff_state` with `fuel` remaining stack
frames: the getter body reads the same property again. -/
def highTariffStateGetter : Nat → Except PyError (Option HAState)
  | 0 => .error .recursionError
  | n + 1 => highTariffStateGetter n

/-! ### Concrete sample states used by witnesses -/

/-- All snapshots present, high tariff unavailable, the rest available. -/
def sampleMixed : MonitorState :=
  { low_tariff_state := some { available := true, state := some 1 }
    high_tariff_state := some { available := false, state := none }
    low_consumption_state := some { available := true, state := some 3 }
    high_consumption_state := some { available := true, state := some 4 } }

/-- Low tariff present but unavailable; the other three snapshots were never
created. -/
def samplePartial : MonitorState :=
  { low_tariff_state := some { available := false, state := none } }

/-- High tariff snapshot missing; the other three snapshots available. -/
def sampleMissingHT : MonitorState :=
  { low_tariff_state := some { available := true, state := some 1 }
    high_tariff_state := none
    low_consumption_state := some { available := true, state := some 3 }
    high_consumption_state := some { available := true, state := some 4 } }

end EnergyDeviceMonitor

/-! ## Helper lemmas -/

namespace EnergyDeviceMonitor


lemma updateEntityState_ok (raw : Option (Option String)) :
    ∃ e, updateEntityState raw = .ok e := by
  rcases raw with _ | (_ | s)
  · exact ⟨_, rfl⟩
  · exact ⟨_, rfl⟩
  · by_cases h : s = STATE_UNAVAILABLE
    · exact ⟨{ available := false }, by simp [updateEntityState, h]⟩
    · cases hp : pyFloat? s
      · exact ⟨{ available := false }, by simp [updateEntityState, h, pyFloatExc, hp]⟩
      · exact ⟨{ available := true, state := pyFloat? s },
          by simp [updateEntityState, h, pyFloatExc, hp]⟩

lemma availableEval_dailyLowCost (a1 a3 : Bool) (v1 v3 : Option ℚ)
    (ht hc : Option EnergyDeviceEntityState) :
    availableEval .dailyLowCost ⟨some ⟨a1, v1⟩, ht, some ⟨a3, v3⟩, hc⟩ =
      .ok (a1 && a3, ⟨some ⟨a1, v1⟩, ht, some ⟨a3, v3⟩, hc⟩) := by
  cases a1 <;> cases a3 <;> rfl

lemma availableEval_dailyHighCost (a2 a4 : Bool) (v2 v4 : Option ℚ)
    (lt lc : Option EnergyDeviceEntityState) :
    availableEval .dailyHighCost ⟨lt, some ⟨a2, v2⟩, lc, some ⟨a4, v4⟩⟩ =
      .ok (a2 && a4, ⟨lt, some ⟨a2, v2⟩, lc, some ⟨a4, v4⟩⟩) := by
  cases a2 <;> cases a4 <;> rfl

lemma availableEval_totalDailyCost (a1 a2 a3 a4 : Bool) (v1 v2 v3 v4 : Option ℚ) :
    availableEval .totalDailyCost ⟨some ⟨a1, v1⟩, some ⟨a2, v2⟩, some ⟨a3, v3⟩, some ⟨a4, v4⟩⟩ =
      .ok (a1 && (a2 && (a3 && a4)),
        ⟨some ⟨a1, v1⟩, some ⟨a2, v2⟩, some ⟨a3, v3⟩, some ⟨a4, v4⟩⟩) := by
  cases a1 <;> cases a2 <;> cases a3 <;> cases a4 <;> rfl

lemma availableEval_totalDailyConsumption (a3 a4 : Bool) (v3 v4 : Option ℚ)
    (lt ht : Option EnergyDeviceEntityState) :
    availableEval .totalDailyConsumption ⟨lt, ht, some ⟨a3, v3⟩, some ⟨a4, v4⟩⟩ =
      .ok (a3 && a4, ⟨lt, ht, some ⟨a3, v3⟩, some ⟨a4, v4⟩⟩) := by
  cases a3 <;> cases a4 <;> rfl

lemma availableEval_all (k : SensorKind) (st : MonitorState)
    (h : ∀ d ∈ deps k, (depState d st).isSome = true) :
    availableEval k st = .ok ((deps k).all (fun d => depAvailable d st), st) := by
  rcases st with ⟨lt, ht, lc, hc⟩
  cases k
  case dailyLowCost =>
    have h1 := h .lowTariff (by simp [deps])
    have h3 := h .lowConsumption (by simp [deps])
    rcases lt with _ | ⟨a1, v1⟩
    · simp [depState] at h1
    rcases lc with _ | ⟨a3, v3⟩
    · simp [depState] at h3
    rw [availableEval_dailyLowCost]
    simp [deps, depAvailable, depState]
  case dailyHighCost =>
    have h2 := h .highTariff (by simp [deps])
    have h4 := h .highConsumption (by simp [deps])
    rcases ht with _ | ⟨a2, v2⟩
    · simp [depState] at h2
    rcases hc with _ | ⟨a4, v4⟩
    · simp [depState] at h4
    rw [availableEval_dailyHighCost]
    simp [deps, depAvailable, depState]
  case totalDailyCost =>
    have h1 := h .lowTariff (by simp [deps])
    have h2 := h .highTariff (by simp [deps])
    have h3 := h .lowConsumption (by simp [deps])
    have h4 := h .highConsumption (by simp [deps])
    rcases lt with _ | ⟨a1, v1⟩
    · simp [depState] at h1
    rcases ht with _ | ⟨a2, v2⟩
    · simp [depState] at h2
    rcases lc with _ | ⟨a3, v3⟩
    · simp [depState] at h3
    rcases hc with _ | ⟨a4, v4⟩
    · simp [depState] at h4
    rw [availableEval_totalDailyCost]
    simp [deps, depAvailable, depState]
  case totalDailyConsumption =>
    have h3 := h .lowConsumption (by simp [deps])
    have h4 := h .highConsumption (by simp [deps])
    rcases lc with _ | ⟨a3, v3⟩
    · simp [depState] at h3
    rcases hc with _ | ⟨a4, v4⟩
    · simp [depState] at h4
    rw [availableEval_totalDailyConsumption]
    simp [deps, depAvailable, depState]



lemma availableEval_state (k : SensorKind) (st : MonitorState) :
    ∀ p, availableEval k st = .ok p → p.2 = st := by
  rcases st with ⟨lt, ht, lc, hc⟩
  intro p h
  cases k <;>
    rcases lt with _ | ⟨a1, v1⟩ <;> rcases ht with _ | ⟨a2, v2⟩ <;>
    rcases lc with _ | ⟨a3, v3⟩ <;> rcases hc with _ | ⟨a4, v4⟩ <;>
    (try cases a1) <;> (try cases a2) <;> (try cases a3) <;> (try cases a4) <;>
    first
      | exact Except.noConfusion h
      | exact congrArg Prod.snd (Except.ok.inj h.symm)

lemma nativeValueEval_state (k : SensorKind) (st : MonitorState) :
    ∀ p, nativeValueEval k st = .ok p → p.2 = st := by
  rcases st with ⟨lt, ht, lc, hc⟩
  intro p h
  cases k <;>
    rcases lt with _ | ⟨a1, v1⟩ <;> rcases ht with _ | ⟨a2, v2⟩ <;>
    rcases lc with _ | ⟨a3, v3⟩ <;> rcases hc with _ | ⟨a4, v4⟩ <;>
    (try rcases v1 with _ | x1) <;> (try rcases v2 with _ | x2) <;>
    (try rcases v3 with _ | x3) <;> (try rcases v4 with _ | x4) <;>
    first
      | exact Except.noConfusion h
      | exact congrArg Prod.snd (Except.ok.inj h.symm)

lemma evaluateEval_state (k : SensorKind) (st : MonitorState)
    (q : (Bool × Option ℚ) × MonitorState) (h : evaluateEval k st = .ok q) :
    q.2 = st := by
  unfold evaluateEval at h
  cases ha : availableEval k st with
  | error e =>
    rw [ha] at h
    exact Except.noConfusion h
  | ok pa =>
    rw [ha] at h
    have hsa := availableEval_state k st pa ha
    simp only [bind, Except.bind, pure, Except.pure] at h
    rcases pa with ⟨b, st2⟩
    cases b
    · simp only [Bool.false_eq_true, if_false] at h
      rw [← Except.ok.inj h]
      exact hsa
    · simp only [if_true] at h
      cases hv : nativeValueEval k st2 with
      | error e =>
        rw [hv] at h
        exact Except.noConfusion h
      | ok pv =>
        rw [hv] at h
        have hsv := nativeValueEval_state k st2 pv hv
        rw [← Except.ok.inj h]
        exact hsv.trans hsa



lemma asyncUpdate_run (hs : String → Option (Option String)) (e : EntryData)
    (sub : SubentryData) (flags : IncludeFlags) (st : MonitorState)
    (w1 w2 w3 w4 : EnergyDeviceEntityState)
    (h1 : updateEntityState (hs e.conf_low_tariff_entity) = .ok w1)
    (h2 : updateEntityState (hs e.conf_high_tariff_entity) = .ok w2)
    (h3 : updateEntityState (hs sub.conf_low_consumption_entity) = .ok w3)
    (h4 : updateEntityState (hs sub.conf_high_consumption_entity) = .ok w4) :
    asyncUpdate hs e sub flags st = .ok
      { low_tariff_state :=
          if flags.include_low_tariff then some w1 else st.low_tariff_state
        high_tariff_state :=
          if flags.include_high_tariff then some w2 else st.high_tariff_state
        low_consumption_state :=
          if flags.include_low_consumption then some w3 else st.low_consumption_state
        high_consumption_state :=
          if flags.include_high_consumption then some w4 else st.high_consumption_state } := by
  rcases flags with ⟨f1, f2, f3, f4⟩
  rcases st with ⟨lt, ht, lc, hc⟩
  cases f1 <;> cases f2 <;> cases f3 <;> cases f4 <;>
    simp only [asyncUpdate, h1, h2, h3, h4, bind, Except.bind, pure, Except.pure,
      if_true, if_false, Bool.false_eq_true]

lemma asyncUpdate_set (d : Dep) (hs : String → Option (Option String))
    (e : EntryData) (sub : SubentryData) (flags : IncludeFlags) (st : MonitorState)
    (w : EnergyDeviceEntityState) (hf : flagOf d flags = true)
    (hw : updateEntityState (hs (entityId d e sub)) = .ok w) :
    ∃ st', asyncUpdate hs e sub flags st = .ok st' ∧ depState d st' = some w := by
  obtain ⟨w1, h1⟩ := updateEntityState_ok (hs e.conf_low_tariff_entity)
  obtain ⟨w2, h2⟩ := updateEntityState_ok (hs e.conf_high_tariff_entity)
  obtain ⟨w3, h3⟩ := updateEntityState_ok (hs sub.conf_low_consumption_entity)
  obtain ⟨w4, h4⟩ := updateEntityState_ok (hs sub.conf_high_consumption_entity)
  cases d
  case lowTariff =>
    refine ⟨_, asyncUpdate_run hs e sub flags st w w2 w3 w4 hw h2 h3 h4, ?_⟩
    simp only [flagOf] at hf
    simp [depState, hf]
  case highTariff =>
    refine ⟨_, asyncUpdate_run hs e sub flags st w1 w w3 w4 h1 hw h3 h4, ?_⟩
    simp only [flagOf] at hf
    simp [depState, hf]
  case lowConsumption =>
    refine ⟨_, asyncUpdate_run hs e sub flags st w1 w2 w w4 h1 h2 hw h4, ?_⟩
    simp only [flagOf] at hf
    simp [depState, hf]
  case highConsumption =>
    refine ⟨_, asyncUpdate_run hs e sub flags st w1 w2 w3 w h1 h2 h3 hw, ?_⟩
    simp only [flagOf] at hf
    simp [depState, hf]

lemma asyncUpdate_preserve (d : Dep) (hs : String → Option (Option String))
    (e : EntryData) (sub : SubentryData) (flags : IncludeFlags)
    (st st' : MonitorState) (hf : flagOf d flags = false)
    (h : asyncUpdate hs e sub flags st = .ok st') :
    depState d st' = depState d st := by
  obtain ⟨w1, h1⟩ := updateEntityState_ok (hs e.conf_low_tariff_entity)
  obtain ⟨w2, h2⟩ := updateEntityState_ok (hs e.conf_high_tariff_entity)
  obtain ⟨w3, h3⟩ := updateEntityState_ok (hs sub.conf_low_consumption_entity)
  obtain ⟨w4, h4⟩ := updateEntityState_ok (hs sub.conf_high_consumption_entity)
  rw [asyncUpdate_run hs e sub flags st w1 w2 w3 w4 h1 h2 h3 h4] at h
  cases d <;> simp only [flagOf] at hf <;>
    rw [← Except.ok.inj h] <;> simp [depState, hf]


lemma pyFloat_unavailable_fails : pyFloat? STATE_UNAVAILABLE = none := by decide

lemma updateEntityState_parsed (s : String) (v : ℚ) (h : pyFloat? s = some v) :
    updateEntityState (some (some s)) = .ok { available := true, state := some v } := by
  by_cases hu : s = STATE_UNAVAILABLE
  · rw [hu] at h
    rw [pyFloat_unavailable_fails] at h
    exact Option.noConfusion h
  · simp [updateEntityState, hu, pyFloatExc, h]

lemma updateEntityState_bad (raw : Option (Option String))
    (h : raw = none ∨ raw = some none ∨
      ∃ s, raw = some (some s) ∧ (s = STATE_UNAVAILABLE ∨ pyFloat? s = none)) :
    updateEntityState raw = .ok { available := false, state := none } := by
  rcases h with rfl | rfl | ⟨s, rfl, hs | hs⟩
  · rfl
  · rfl
  · simp [updateEntityState, hs]
  · by_cases hu : s = STATE_UNAVAILABLE
    · simp [updateEntityState, hu]
    · simp [updateEntityState, hu, pyFloatExc, hs]


lemma evaluate_missing_dep_error (k : SensorKind) (st : MonitorState) (d : Dep)
    (hd : d ∈ deps k) (h0 : depState d st = none)
    (hoth : ∀ d2 ∈ deps k, d2 ≠ d → depAvailable d2 st = true) :
    evaluateEval k st = .error .attributeError := by
  rcases st with ⟨lt, ht, lc, hc⟩
  cases k
  case dailyLowCost =>
    cases d
    case lowTariff =>
      simp only [depState] at h0
      subst h0
      rfl
    case highTariff => simp [deps] at hd
    case lowConsumption =>
      have h1 := hoth .lowTariff (by simp [deps]) (by decide)
      simp only [depState] at h0
      subst h0
      rcases lt with _ | ⟨a1, v1⟩
      · simp [depAvailable, depState] at h1
      · simp only [depAvailable, depState] at h1
        subst h1
        rfl
    case highConsumption => simp [deps] at hd
  case dailyHighCost =>
    cases d
    case lowTariff => simp [deps] at hd
    case highTariff =>
      simp only [depState] at h0
      subst h0
      rfl
    case lowConsumption => simp [deps] at hd
    case highConsumption =>
      have h2 := hoth .highTariff (by simp [deps]) (by decide)
      simp only [depState] at h0
      subst h0
      rcases ht with _ | ⟨a2, v2⟩
      · simp [depAvailable, depState] at h2
      · simp only [depAvailable, depState] at h2
        subst h2
        rfl
  case totalDailyCost =>
    cases d
    case lowTariff =>
      simp only [depState] at h0
      subst h0
      rfl
    case highTariff =>
      have h1 := hoth .lowTariff (by simp [deps]) (by decide)
      simp only [depState] at h0
      subst h0
      rcases lt with _ | ⟨a1, v1⟩
      · simp [depAvailable, depState] at h1
      · simp only [depAvailable, depState] at h1
        subst h1
        rfl
    case lowConsumption =>
      have h1 := hoth .lowTariff (by simp [deps]) (by decide)
      have h2 := hoth .highTariff (by simp [deps]) (by decide)
      simp only [depState] at h0
      subst h0
      rcases lt with _ | ⟨a1, v1⟩
      · simp [depAvailable, depState] at h1
      rcases ht with _ | ⟨a2, v2⟩
      · simp [depAvailable, depState] at h2
      simp only [depAvailable, depState] at h1 h2
      subst h1
      subst h2
      rfl
    case highConsumption =>
      have h1 := hoth .lowTariff (by simp [deps]) (by decide)
      have h2 := hoth .highTariff (by simp [deps]) (by decide)
      have h3 := hoth .lowConsumption (by simp [deps]) (by decide)
      simp only [depState] at h0
      subst h0
      rcases lt with _ | ⟨a1, v1⟩
      · simp [depAvailable, depState] at h1
      rcases ht with _ | ⟨a2, v2⟩
      · simp [depAvailable, depState] at h2
      rcases lc with _ | ⟨a3, v3⟩
      · simp [depAvailable, depState] at h3
      simp only [depAvailable, depState] at h1 h2 h3
      subst h1
      subst h2
      subst h3
      rfl
  case totalDailyConsumption =>
    cases d
    case lowTariff => simp [deps] at hd
    case highTariff => simp [deps] at hd
    case lowConsumption =>
      simp only [depState] at h0
      subst h0
      rfl
    case highConsumption =>
      have h3 := hoth .lowConsumption (by simp [deps]) (by decide)
      simp only [depState] at h0
      subst h0
      rcases lc with _ | ⟨a3, v3⟩
      · simp [depAvailable, depState] at h3
      · simp only [depAvailable, depState] at h3
        subst h3
        rfl

end EnergyDeviceMonitor

/-! ## Claim theorems -/

namespace EnergyDeviceMonitor

/-- C1: for every derived metric and every dependency snapshot state in which
all dependency snapshots exist, the metric's `available` flag equals the
logical AND of the availability flags of all of its dependencies — false
whenever any one dependency is unavailable, regardless of the others, and
true when all are available. -/
theorem availability_is_and_of_dependencies (k : SensorKind) (st : MonitorState)
    (h : ∀ d ∈ deps k, (depState d st).isSome = true) :
    availableEval k st = .ok ((deps k).all (fun d => depAvailable d st), st) :=
  availableEval_all k st h

/-- Witness for C1: the total-cost metric over a state whose high tariff is
unavailable evaluates to the AND of the four flags, here false. -/
theorem availability_is_and_of_dependencies_witness :
    (∀ d ∈ deps .totalDailyCost, (depState d sampleMixed).isSome = true) ∧
    availableEval .totalDailyCost sampleMixed =
      .ok ((deps .totalDailyCost).all (fun d => depAvailable d sampleMixed),
        sampleMixed) :=
  ⟨by decide, availability_is_and_of_dependencies .totalDailyCost sampleMixed
    (by decide)⟩

/-- C2: with all four dependencies available and carrying the given numeric
values, the four metrics compute their fixed combination formulas:
low cost = low price × low consumption, high cost = high price × high
consumption, total cost = their sum, total consumption = the sum of the two
consumptions. -/
theorem combination_formulas (pl ph cl ch : ℚ) :
    evaluateEval .dailyLowCost (mkAllAvailable pl ph cl ch) =
      .ok ((true, some (pl * cl)), mkAllAvailable pl ph cl ch) ∧
    evaluateEval .dailyHighCost (mkAllAvailable pl ph cl ch) =
      .ok ((true, some (ph * ch)), mkAllAvailable pl ph cl ch) ∧
    evaluateEval .totalDailyCost (mkAllAvailable pl ph cl ch) =
      .ok ((true, some (pl * cl + ph * ch)), mkAllAvailable pl ph cl ch) ∧
    evaluateEval .totalDailyConsumption (mkAllAvailable pl ph cl ch) =
      .ok ((true, some (cl + ch)), mkAllAvailable pl ph cl ch) :=
  ⟨rfl, rfl, rfl, rfl⟩

/-- C3: whenever all dependency snapshots exist and at least one dependency
is unavailable, `evaluate()` returns `(false, none)`: the combination
function is never invoked, and since the result is the same for every
assignment of numeric values to the snapshots, no dependency's numeric value
is read or used. -/
theorem unavailable_dependency_short_circuits (k : SensorKind) (st : MonitorState)
    (h : ∀ d ∈ deps k, (depState d st).isSome = true)
    (hun : ∃ d ∈ deps k, depAvailable d st = false) :
    evaluateEval k st = .ok ((false, none), st) := by
  have hall : (deps k).all (fun d => depAvailable d st) = false := by
    rw [List.all_eq_false]
    obtain ⟨d, hd, hfalse⟩ := hun
    exact ⟨d, hd, by simp [hfalse]⟩
  unfold evaluateEval
  rw [availableEval_all k st h]
  simp [bind, Except.bind, pure, Except.pure, hall]

/-- Witness for C3: total cost with an unavailable high tariff evaluates to
`(false, none)`. -/
theorem unavailable_dependency_short_circuits_witness :
    (∀ d ∈ deps .totalDailyCost, (depState d sampleMixed).isSome = true) ∧
    (∃ d ∈ deps .totalDailyCost, depAvailable d sampleMixed = false) ∧
    evaluateEval .totalDailyCost sampleMixed = .ok ((false, none), sampleMixed) :=
  ⟨by decide, by decide,
    unavailable_dependency_short_circuits .totalDailyCost sampleMixed
      (by decide) (by decide)⟩

/-- C4: for every registered dependency whose raw state string parses as a
finite float, `async_update` succeeds and leaves that dependency's snapshot
with `available = true` and the numeric value exactly equal to the parsed
value. -/
theorem report_change_parsed_value (d : Dep) (hs : String → Option (Option String))
    (e : EntryData) (sub : SubentryData) (flags : IncludeFlags) (st : MonitorState)
    (s : String) (v : ℚ) (hflag : flagOf d flags = true)
    (hraw : hs (entityId d e sub) = some (some s)) (hparse : pyFloat? s = some v) :
    ∃ st', asyncUpdate hs e sub flags st = .ok st' ∧
      depState d st' = some { available := true, state := some v } := by
  apply asyncUpdate_set d hs e sub flags st _ hflag
  rw [hraw]
  exact updateEntityState_parsed s v hparse

/-- Witness for C4: raw value "2.5" leaves the low-tariff snapshot available
with value 5/2. -/
theorem report_change_parsed_value_witness :
    (flagOf .lowTariff (kindFlags .totalDailyCost) = true) ∧
    ((fun _ => some (some "2.5")) (entityId .lowTariff ⟨"lt", "ht"⟩ ⟨"lc", "hc"⟩) =
      some (some "2.5")) ∧
    (pyFloat? "2.5" = some (mkRat 5 2)) ∧
    ∃ st', asyncUpdate (fun _ => some (some "2.5")) ⟨"lt", "ht"⟩ ⟨"lc", "hc"⟩
        (kindFlags .totalDailyCost) initialState = .ok st' ∧
      depState .lowTariff st' =
        some { available := true, state := some (mkRat 5 2) } :=
  ⟨rfl, rfl, by decide,
    report_change_parsed_value .lowTariff (fun _ => some (some "2.5"))
      ⟨"lt", "ht"⟩ ⟨"lc", "hc"⟩ (kindFlags .totalDailyCost) initialState
      "2.5" (mkRat 5 2) rfl rfl (by decide)⟩

/-- C5: for every registered dependency whose raw state is absent, `None`,
the "unavailable" sentinel, or a string that fails to parse as a float,
`async_update` succeeds — no exception escapes the tracker — and that
dependency's snapshot becomes `available = false` with no value. -/
theorem report_change_failure_absorbed (d : Dep)
    (hs : String → Option (Option String)) (e : EntryData) (sub : SubentryData)
    (flags : IncludeFlags) (st : MonitorState) (hflag : flagOf d flags = true)
    (hraw : hs (entityId d e sub) = none ∨ hs (entityId d e sub) = some none ∨
      ∃ s, hs (entityId d e sub) = some (some s) ∧
        (s = STATE_UNAVAILABLE ∨ pyFloat? s = none)) :
    ∃ st', asyncUpdate hs e sub flags st = .ok st' ∧
      depState d st' = some { available := false, state := none } := by
  apply asyncUpdate_set d hs e sub flags st _ hflag
  exact updateEntityState_bad _ hraw

/-- Witness for C5: the raw sentinel string "unavailable" is absorbed into an
unavailable snapshot for the high-tariff dependency. -/
theorem report_change_failure_absorbed_witness :
    (flagOf .highTariff (kindFlags .totalDailyCost) = true) ∧
    (∃ s, (fun _ => some (some "unavailable"))
        (entityId .highTariff ⟨"lt", "ht"⟩ ⟨"lc", "hc"⟩) = some (some s) ∧
      (s = STATE_UNAVAILABLE ∨ pyFloat? s = none)) ∧
    ∃ st', asyncUpdate (fun _ => some (some "unavailable")) ⟨"lt", "ht"⟩
        ⟨"lc", "hc"⟩ (kindFlags .totalDailyCost) initialState = .ok st' ∧
      depState .highTariff st' = some { available := false, state := none } :=
  ⟨rfl, ⟨"unavailable", rfl, Or.inl rfl⟩,
    report_change_failure_absorbed .highTariff (fun _ => some (some "unavailable"))
      ⟨"lt", "ht"⟩ ⟨"lc", "hc"⟩ (kindFlags .totalDailyCost) initialState rfl
      (Or.inr (Or.inr ⟨"unavailable", rfl, Or.inl rfl⟩))⟩

end EnergyDeviceMonitor

namespace EnergyDeviceMonitor

/-- C6 counterexample: over `samplePartial`, the high-tariff dependency of
the total-cost metric was never registered — its snapshot does not exist —
yet `evaluate()` returns `(false, none)`: the availability check
short-circuits at the unavailable low tariff, so the missing snapshot is
silently folded into an `available = false` result instead of failing. -/
theorem unregistered_dependency_silently_unavailable :
    depState .highTariff samplePartial = none ∧
    Dep.highTariff ∈ deps .totalDailyCost ∧
    evaluateEval .totalDailyCost samplePartial =
      .ok ((false, none), samplePartial) :=
  ⟨rfl, by decide, rfl⟩

/-- C6 (amended): a never-registered dependency has no snapshot — after
construction every snapshot is unset and updates never create entries for
unregistered dependencies; reading such a snapshot raises `AttributeError`,
which is propagated, never converted into a value; and `evaluate()` on a
metric depending on it propagates the `AttributeError` uncaught whenever all
the metric's other dependencies are available (only an earlier unavailable
dependency can short-circuit past the missing read). -/
theorem unregistered_snapshot_error_propagates :
    (∀ d, depState d initialState = none) ∧
    (∀ d (hs : String → Option (Option String)) e sub flags st st',
      flagOf d flags = false → asyncUpdate hs e sub flags st = .ok st' →
        depState d st' = depState d st) ∧
    (∀ d st, depState d st = none →
      readAttr (depState d st) st = .error .attributeError) ∧
    (∀ k st d, d ∈ deps k → depState d st = none →
      (∀ d2 ∈ deps k, d2 ≠ d → depAvailable d2 st = true) →
        evaluateEval k st = .error .attributeError) := by
  refine ⟨?_, ?_, ?_, ?_⟩
  · intro d
    cases d <;> rfl
  · intro d hs e sub flags st st' hf h
    exact asyncUpdate_preserve d hs e sub flags st st' hf h
  · intro d st h
    rw [h]
    rfl
  · intro k st d hd h0 hoth
    exact evaluate_missing_dep_error k st d hd h0 hoth

/-- Witness for the amended C6: with the high-tariff snapshot missing and
every other dependency available, the snapshot read and the total-cost
evaluation both raise `AttributeError`. -/
theorem unregistered_snapshot_error_propagates_witness :
    readAttr (depState .highTariff sampleMissingHT) sampleMissingHT =
      .error .attributeError ∧
    evaluateEval .totalDailyCost sampleMissingHT = .error .attributeError :=
  ⟨unregistered_snapshot_error_propagates.2.2.1 .highTariff sampleMissingHT rfl,
    unregistered_snapshot_error_propagates.2.2.2 .totalDailyCost sampleMissingHT
      .highTariff (by decide) rfl (by decide)⟩

/-- C7 counterexample: immediately after construction (registration of all
its dependencies) and before anything is reported or refreshed, the
low-consumption snapshot of the total-consumption sensor does not exist —
the attribute is unset, not `available = false` — and reading the sensor's
availability raises `AttributeError` instead of reporting false. -/
theorem registration_does_not_create_snapshot :
    flagOf .lowConsumption (kindFlags .totalDailyConsumption) = true ∧
    depState .lowConsumption initialState = none ∧
    availableEval .totalDailyConsumption initialState = .error .attributeError :=
  ⟨rfl, rfl, rfl⟩

/-- C7 (amended): registration alone leaves the snapshots unset; the entries
are created by the sensor's first refresh, which the host runs before the
entity is first read (`update_before_add`). After that first refresh against
a host where the registered identifiers were never reported (no state object
exists), every dependency snapshot of the sensor exists with
`available = false`, and the metric evaluates to `(false, none)` rather
than failing. -/
theorem first_refresh_marks_unreported_unavailable (e : EntryData)
    (sub : SubentryData) (k : SensorKind) :
    ∃ st', asyncUpdate (fun _ => none) e sub (kindFlags k) initialState = .ok st' ∧
      (∀ d ∈ deps k, depState d st' = some { available := false, state := none }) ∧
      evaluateEval k st' = .ok ((false, none), st') := by
  cases k
  case dailyLowCost => exact ⟨_, rfl, by decide, rfl⟩
  case dailyHighCost => exact ⟨_, rfl, by decide, rfl⟩
  case totalDailyCost => exact ⟨_, rfl, by decide, rfl⟩
  case totalDailyConsumption => exact ⟨_, rfl, by decide, rfl⟩

/-- C8: `evaluate()` is a pure, side-effect-free read: it leaves every
tracked snapshot unchanged, and evaluating again with no intervening
`report_change` yields the identical `(available, value)` pair. -/
theorem evaluate_pure_idempotent (k : SensorKind) (st : MonitorState)
    (r : Bool × Option ℚ) (st' : MonitorState)
    (h : evaluateEval k st = .ok (r, st')) :
    st' = st ∧ evaluateEval k st' = .ok (r, st') := by
  have hst : st' = st := evaluateEval_state k st (r, st') h
  subst hst
  exact ⟨rfl, h⟩

/-- Witness for C8: a concrete evaluation of the low-cost metric leaves the
state unchanged and repeats identically. -/
theorem evaluate_pure_idempotent_witness :
    evaluateEval .dailyLowCost (mkAllAvailable 1 2 3 4) =
      .ok ((true, some ((1 : ℚ) * 3)), mkAllAvailable 1 2 3 4) ∧
    mkAllAvailable 1 2 3 4 = mkAllAvailable 1 2 3 4 ∧
    evaluateEval .dailyLowCost (mkAllAvailable 1 2 3 4) =
      .ok ((true, some ((1 : ℚ) * 3)), mkAllAvailable 1 2 3 4) :=
  ⟨rfl, evaluate_pure_idempotent .dailyLowCost (mkAllAvailable 1 2 3 4)
    (true, some ((1 : ℚ) * 3)) (mkAllAvailable 1 2 3 4) rfl⟩

/-- C9: `last_reset` returns the timestamp of midnight (00:00, the start of
day) of now's calendar date in the configured timezone — exactly the spec's
`start_of_current_period` for that zone — and performs no subtraction or
roll-over of values. -/
theorem last_reset_is_start_of_current_period (now : ZonedDateTime) :
    last_reset now = start_of_current_period now now.tzKey ∧
    (last_reset now).date = now.date ∧
    (last_reset now).timeOfDay = time_min :=
  ⟨rfl, rfl, rfl⟩

/-- C10: contrary to the claim that reading the controller's tariff-state
accessors terminates and returns the last stored state (or the initial
`None`), each property getter re-enters itself: for every recursion budget
it exhausts the budget and raises `RecursionError`, never producing any
value. -/
theorem tariff_state_getter_diverges (fuel : Nat) :
    lowTariffStateGetter fuel = .error .recursionError ∧
    highTariffStateGetter fuel = .error .recursionError := by
  induction fuel with
  | zero => exact ⟨rfl, rfl⟩
  | succ n ih => simpa [lowTariffStateGetter, highTariffStateGetter] using ih

end EnergyDeviceMonitor

namespace EnergyDeviceMonitor

/-- Witness for C2 at prices 1, 2 and consumptions 3, 4. -/
theorem combination_formulas_witness :
    evaluateEval .dailyLowCost (mkAllAvailable 1 2 3 4) =
      .ok ((true, some ((1 : ℚ) * 3)), mkAllAvailable 1 2 3 4) ∧
    evaluateEval .dailyHighCost (mkAllAvailable 1 2 3 4) =
      .ok ((true, some ((2 : ℚ) * 4)), mkAllAvailable 1 2 3 4) ∧
    evaluateEval .totalDailyCost (mkAllAvailable 1 2 3 4) =
      .ok ((true, some ((1 : ℚ) * 3 + 2 * 4)), mkAllAvailable 1 2 3 4) ∧
    evaluateEval .totalDailyConsumption (mkAllAvailable 1 2 3 4) =
      .ok ((true, some ((3 : ℚ) + 4)), mkAllAvailable 1 2 3 4) :=
  combination_formulas 1 2 3 4

/-- Witness for the amended C7: the total-consumption sensor after its first
refresh against a host with no reported states. -/
theorem first_refresh_marks_unreported_unavailable_witness :
    ∃ st', asyncUpdate (fun _ => none) ⟨"lt", "ht"⟩ ⟨"lc", "hc"⟩
        (kindFlags .totalDailyConsumption) initialState = .ok st' ∧
      (∀ d ∈ deps .totalDailyConsumption,
        depState d st' = some { available := false, state := none }) ∧
      evaluateEval .totalDailyConsumption st' = .ok ((false, none), st') :=
  first_refresh_marks_unreported_unavailable ⟨"lt", "ht"⟩ ⟨"lc", "hc"⟩
    .totalDailyConsumption

/-- Witness for C9 at a concrete zoned datetime. -/
theorem last_reset_is_start_of_current_period_witness :
    last_reset ⟨⟨2026, 10, 12⟩, ⟨13, 45, 30, 0⟩, "Europe/Amsterdam"⟩ =
      start_of_current_period ⟨⟨2026, 10, 12⟩, ⟨13, 45, 30, 0⟩, "Europe/Amsterdam"⟩
        (ZonedDateTime.tzKey ⟨⟨2026, 10, 12⟩, ⟨13, 45, 30, 0⟩, "Europe/Amsterdam"⟩) ∧
    (last_reset ⟨⟨2026, 10, 12⟩, ⟨13, 45, 30, 0⟩, "Europe/Amsterdam"⟩).date =
      ZonedDateTime.date ⟨⟨2026, 10, 12⟩, ⟨13, 45, 30, 0⟩, "Europe/Amsterdam"⟩ ∧
    (last_reset ⟨⟨2026, 10, 12⟩, ⟨13, 45, 30, 0⟩, "Europe/Amsterdam"⟩).timeOfDay =
      time_min :=
  last_reset_is_start_of_current_period ⟨⟨2026, 10, 12⟩, ⟨13, 45, 30, 0⟩, "Europe/Amsterdam"⟩

/-- Witness for C10: even with a thousand stack frames of budget the getters
only raise `RecursionError`. -/
theorem tariff_state_getter_diverges_witness :
    lowTariffStateGetter 1000 = .error .recursionError ∧
    highTariffStateGetter 1000 = .error .recursionError :=
  tariff_state_getter_diverges 1000

end EnergyDeviceMonitor
